import Mathlib

/-!
Shallow embedding of the signal decision engine and the risk-gated order
lifecycle of project_gyan, covering `services/engine_astra/risk_manager.py`,
`services/engine_astra/rules_engine.py`, `services/engine_astra/oms.py` and
`shared/costs.py`.

Modelling conventions:
* Python floats are modelled as rationals (`ℚ`).
* Python `round(x, 2)` (round-half-to-even) is `round2`.
* Python `int(x)` applied to a float (truncation toward zero) is `pyInt`.
* Python `max(xs, default=d)` / `min(xs, default=d)` are `listMaxD` / `listMinD`.
* Verdict tags, trend tags, regime tags and sector status are kept as the
  exact strings the source uses.
* The `instrument_type` strings enumerated in the docstring of
  `calculate_transaction_costs` are modelled as the enum `InstrumentType`;
  each Python substring test (`"EQUITY" in instrument_type`, ...) becomes a
  match on the constructors that contain that substring.
* The Redis-held OMS state (`bot:capital`, `bot:active`, `bot:trades`) is a
  record `OMSState`; wall-clock timestamps (`entry_time` / `exit_time`) and
  the uuid generator are irrelevant to the claims, so the trade id is taken
  as an externally supplied `Nat` and timestamps are elided.
-/

namespace Gyan

/-- Python `round(x)` to an integer: round half to even (banker's rounding). -/
def pyRoundInt (x : ℚ) : ℤ :=
  let f := ⌊x⌋
  let r := x - f
  if r < 1/2 then f
  else if 1/2 < r then f + 1
  else if 2 ∣ f then f else f + 1

/-- Python `round(x, 2)`. -/
def round2 (x : ℚ) : ℚ := (pyRoundInt (100 * x) : ℚ) / 100

/-- Python `int(x)` on a float: truncation toward zero. -/
def pyInt (x : ℚ) : ℤ := if 0 ≤ x then ⌊x⌋ else ⌈x⌉

/-- Python `max(xs, default=d)`. -/
def listMaxD (xs : List ℚ) (d : ℚ) : ℚ :=
  match xs with
  | [] => d
  | x :: rest => rest.foldl max x

/-- Python `min(xs, default=d)`. -/
def listMinD (xs : List ℚ) (d : ℚ) : ℚ :=
  match xs with
  | [] => d
  | x :: rest => rest.foldl min x

/-! ## risk_manager.py -/

/-- `RiskManager.__init__(max_drawdown_pct=0.05, daily_loss_limit=0.02)`:
`self.max_dd` and `self.daily_limit`. -/
structure RiskManager where
  max_dd : ℚ
  daily_limit : ℚ
deriving DecidableEq

/-- The module-level singleton `risk_manager = RiskManager()` built with the
default arguments. -/
def defaultRiskManager : RiskManager := { max_dd := 5/100, daily_limit := 2/100 }

/-- The source returns `(False, "Total Drawdown Breach (...)")` etc.; the
formatted reason strings are modelled by this tag. -/
inductive EntryReason where
  | ok
  | totalDrawdownBreach
  | dailyLossLimitHit
deriving DecidableEq

/-- `RiskManager.check_entry_allowance(current_capital, start_capital, daily_pnl)`. -/
def check_entry_allowance (rm : RiskManager) (current_capital start_capital daily_pnl : ℚ) :
    Bool × EntryReason :=
  let dd := (start_capital - current_capital) / start_capital
  if dd > rm.max_dd then (false, .totalDrawdownBreach)
  else
    let loss_threshold := -(current_capital * rm.daily_limit)
    if daily_pnl < loss_threshold then (false, .dailyLossLimitHit)
    else (true, .ok)

/-- `RiskManager.calculate_position_size(capital, price, sl, risk_per_trade=0.01)`. -/
def calculate_position_size (capital price sl risk_per_trade : ℚ) : ℤ :=
  let risk_amt := capital * risk_per_trade
  let risk_per_share := |price - sl|
  if risk_per_share = 0 then 0
  else max 1 (pyInt (risk_amt / risk_per_share))

/-- The regime-dependent multiplier set inside `update_trailing_stop`. -/
def regimeMult (regime : String) : ℚ :=
  if regime = "HIGH_VOL_CRASH" ∨ regime = "VOLATILE_COMMODITY" then 1
  else if regime = "BULL_TREND" then 3
  else 2

/-- `RiskManager.update_trailing_stop(entry_price, current_price, current_sl, atr, regime)`.
The `entry_price` argument is accepted but unused, as in the source. -/
def update_trailing_stop (entry_price current_price current_sl atr : ℚ) (regime : String) : ℚ :=
  let mult := regimeMult regime
  let new_sl := current_price - atr * mult
  if new_sl > current_sl then new_sl
  else current_sl

/-! ## shared/costs.py -/

/-- The `side` strings `"BUY"` / `"SELL"` (already upper-case wherever the OMS
calls the cost engine, so `side.upper()` is the identity). -/
inductive Side where
  | BUY
  | SELL
deriving DecidableEq

/-- The `instrument_type` strings enumerated in the docstring of
`calculate_transaction_costs`. -/
inductive InstrumentType where
  | EQUITY_INTRADAY
  | EQUITY_DELIVERY
  | FUTURES
  | OPTIONS
  | COMMODITY_FUTURES
  | COMMODITY_OPTIONS
  | CURRENCY_FUTURES
deriving DecidableEq

/-- Python `"EQUITY" in instrument_type`. -/
def InstrumentType.hasEquity : InstrumentType → Bool
  | .EQUITY_INTRADAY | .EQUITY_DELIVERY => true
  | _ => false

/-- Python `"COMMODITY" in instrument_type`. -/
def InstrumentType.hasCommodity : InstrumentType → Bool
  | .COMMODITY_FUTURES | .COMMODITY_OPTIONS => true
  | _ => false

/-- Python `"CURRENCY" in instrument_type`. -/
def InstrumentType.hasCurrency : InstrumentType → Bool
  | .CURRENCY_FUTURES => true
  | _ => false

/-- Python `"FUTURES" in instrument_type`. -/
def InstrumentType.hasFuturesSub : InstrumentType → Bool
  | .FUTURES | .COMMODITY_FUTURES | .CURRENCY_FUTURES => true
  | _ => false

/-- Python `"OPTIONS" in instrument_type`. -/
def InstrumentType.hasOptionsSub : InstrumentType → Bool
  | .OPTIONS | .COMMODITY_OPTIONS => true
  | _ => false

/-- Python `"INTRADAY" in instrument_type` (used by `place_order`). -/
def InstrumentType.hasIntraday : InstrumentType → Bool
  | .EQUITY_INTRADAY => true
  | _ => false

/-- `calculate_transaction_costs(price, quantity, side, instrument_type)` from
`shared/costs.py`: brokerage (0), STT/CTT, exchange charge, GST, SEBI charge
and stamp duty, totalled and rounded to 2 decimals. -/
def calculate_transaction_costs (price : ℚ) (quantity : ℤ) (side : Side)
    (instrument_type : InstrumentType) : ℚ :=
  let turnover := price * quantity
  let brokerage : ℚ := 0
  let tax : ℚ :=
    match instrument_type with
    | .EQUITY_INTRADAY => if side = .SELL then turnover * (25/100000) else 0
    | .EQUITY_DELIVERY => turnover * (1/1000)
    | .FUTURES => if side = .SELL then turnover * (125/1000000) else 0
    | .OPTIONS => if side = .SELL then turnover * (625/1000000) else 0
    | .COMMODITY_FUTURES => if side = .SELL then turnover * (1/10000) else 0
    | .COMMODITY_OPTIONS => if side = .SELL then turnover * (5/10000) else 0
    | .CURRENCY_FUTURES => 0
  let exch_charge : ℚ :=
    if instrument_type.hasEquity then turnover * (325/10000000)
    else if instrument_type = .FUTURES then turnover * (19/1000000)
    else if instrument_type = .OPTIONS then turnover * (53/100000)
    else if instrument_type.hasCommodity then turnover * (15/1000000)
    else if instrument_type.hasCurrency then turnover * (9/1000000)
    else 0
  let gst := (brokerage + exch_charge) * (18/100)
  let sebi_charges := turnover * (1/1000000)
  let stamp_duty : ℚ :=
    if side = .BUY then
      if instrument_type = .EQUITY_DELIVERY then turnover * (15/100000)
      else if instrument_type = .EQUITY_INTRADAY then turnover * (3/100000)
      else if instrument_type.hasFuturesSub then turnover * (2/100000)
      else if instrument_type.hasOptionsSub then turnover * (3/100000)
      else 0
    else 0
  let total_cost := brokerage + tax + exch_charge + gst + sebi_charges + stamp_duty
  round2 total_cost

/-! ## rules_engine.py -/

/-- The `term` argument of `calculate_stop_loss` / `analyze_timeframe`:
`analyze_stock` only ever passes `'short'`, `'mid'`, `'long'`. -/
inductive Term where
  | short
  | mid
  | long
deriving DecidableEq

/-- The `direction` local of `analyze_timeframe` (`'LONG'` / `'SHORT'`). -/
inductive TradeDir where
  | LONG
  | SHORT
deriving DecidableEq

/-- `calculate_stop_loss(current_price, atr, term, direction)`. -/
def calculate_stop_loss (current_price atr : ℚ) (term : Term) (direction : TradeDir) : ℚ :=
  let multiplier : ℚ := if term = .short then 3/2 else if term = .mid then 5/2 else 7/2
  let sl := if direction = .LONG then current_price - atr * multiplier
            else current_price + atr * multiplier
  round2 sl

/-- `determine_risk_level(altman_z, piotroski_f, beneish_m, vol_pct)`. -/
def determine_risk_level (altman_z piotroski_f beneish_m vol_pct : ℚ) : String :=
  let risk_score : ℕ :=
    (if altman_z < 9/5 then 3 else if altman_z < 3 then 1 else 0)
    + (if piotroski_f < 4 then 2 else 0)
    + (if beneish_m > -(89/50) then 2 else 0)
    + (if vol_pct > 4/100 then 2 else if vol_pct > 2/100 then 1 else 0)
  if risk_score ≥ 5 then "HIGH"
  else if risk_score ≥ 2 then "MEDIUM"
  else "LOW"

/-- `df.iloc[-1]`: the fields of the latest feature row that the engine reads.
`atr` is `Option` because `analyze_stock` reads it with
`latest.get('atr', current_price * 0.02)`. -/
structure LatestRow where
  close : ℚ
  ema_20 : ℚ
  ema_50 : ℚ
  ema_200 : ℚ
  rsi : ℚ
  macd : ℚ
  macd_signal : ℚ
  vol_spike : Bool
  atr : Option ℚ
deriving DecidableEq

/-- The `fundamentals` dict: each field is `Option` because every access in the
source goes through `fundamentals.get(key, default)` (with site-specific
defaults). -/
structure Fundamentals where
  piotroski_f_score : Option ℚ
  revenue_growth : Option ℚ
  altman_z_score : Option ℚ
  beneish_m_score : Option ℚ
deriving DecidableEq

/-- The dict returned by `analyze_timeframe` (the `reasoning` strings are
elided: no claim mentions them). -/
structure TfResult where
  verdict : String
  trend : String
  target_conservative : ℚ
  target_aggressive : ℚ
  stop_loss : ℚ
  risk_reward : ℚ
deriving DecidableEq

/-- The `risk` computation of `analyze_timeframe` (lines
`risk = abs(current_price - stop_loss)` and the 5% fallback when it is 0). -/
def riskOf (current_price stop_loss : ℚ) : ℚ :=
  let risk := |current_price - stop_loss|
  if risk = 0 then current_price * (5/100) else risk

/-- The `# 3. Targets` block of `analyze_timeframe` (direction, stop, risk,
targets, risk-reward and the returned dict), parameterized by the refined
verdict and the detected trend. -/
def tfFinish (current_price atr : ℚ) (term : Term) (verdict trend : String) : TfResult :=
  let direction := if verdict = "SELL" then TradeDir.SHORT else TradeDir.LONG
  let stop_loss := calculate_stop_loss current_price atr term direction
  let risk := riskOf current_price stop_loss
  let target_conservative :=
    if direction = .LONG then current_price + risk * 2 else current_price - risk * 2
  let target_aggressive :=
    if direction = .LONG then current_price + risk * (7/2) else current_price - risk * (7/2)
  let rr := round2 (|target_conservative - current_price| / risk)
  { verdict := verdict
    trend := trend
    target_conservative := round2 target_conservative
    target_aggressive := round2 target_aggressive
    stop_loss := round2 stop_loss
    risk_reward := rr }

/-- `analyze_timeframe(df, term, current_price, atr, base_verdict, fundamentals,
sector_status)`: trend detection, verdict refinement, then the targets block
(`tfFinish`).  The `fundamentals` and `sector_status` parameters are unused in
the source body, so they are dropped here. -/
def analyze_timeframe (latest : LatestRow) (term : Term) (current_price atr : ℚ)
    (base_verdict : String) : TfResult :=
  let trend :=
    match term with
    | .short => if current_price > latest.ema_20 then "UP" else "DOWN"
    | .mid => if current_price > latest.ema_50 then "UP" else "DOWN"
    | .long => if current_price > latest.ema_200 then "UP" else "DOWN"
  let verdict :=
    if trend = "DOWN" ∧ (base_verdict = "BUY" ∨ base_verdict = "STRONG BUY") then
      (if term = .long then "HOLD" else "ACCUMULATE")
    else base_verdict
  let verdict := if trend = "UP" ∧ base_verdict = "SELL" then "HOLD" else verdict
  tfFinish current_price atr term verdict trend

/-- The support/resistance levels returned by `get_support_resistance_levels(df)`
(a list of `(level, kind)` pairs, `kind` being `'Support'` or `'Resistance'`);
the rolling-window detection itself is external technical analysis, so the
resulting list is taken as an input of the scoring step. -/
abbrev SRLevels := List (ℚ × String)

/-- The `--- 1. BASE SCORING ---` block of `analyze_stock`: the additive
technical/fundamental/sentiment/catalyst score. -/
def base_score (latest : LatestRow) (sr_levels : SRLevels) (fundamentals : Fundamentals)
    (sentiment_score : ℚ) (catalyst_score : ℚ) : ℚ :=
  let current_price := latest.close
  let nearest_support :=
    listMaxD ((sr_levels.filter (fun l => l.2 = "Support" ∧ l.1 < current_price)).map
      (fun l => l.1)) 0
  let nearest_resistance :=
    listMinD ((sr_levels.filter (fun l => l.2 = "Resistance" ∧ l.1 > current_price)).map
      (fun l => l.1)) (current_price * (3/2))
  let dist_support := (current_price - nearest_support) / current_price
  let dist_resistance := (nearest_resistance - current_price) / current_price
  let near_support := dist_support < 3/100
  let near_resistance := dist_resistance < 3/100
  let rsi := latest.rsi
  (if rsi < 30 then 15 else if 40 ≤ rsi ∧ rsi ≤ 70 then 10 else 0)
  + (if latest.close > latest.ema_50 then 20 else 0)
  + (if latest.macd > latest.macd_signal then 15 else 0)
  + (if latest.vol_spike then 5 else 0)
  + (if near_support then 10 else 0)
  - (if near_resistance then 10 else 0)
  + (if fundamentals.piotroski_f_score.getD 0 ≥ 6 then 10 else 0)
  + (if fundamentals.revenue_growth.getD 0 > 1/10 then 10 else 0)
  + (if sentiment_score > 1/10 then 10 else 0)
  + catalyst_score * 20

/-- The base-verdict ladder of `analyze_stock` (`score >= 75` → STRONG BUY,
`>= 50` → BUY, `>= 30` → ACCUMULATE, `< 20` → SELL, else HOLD). -/
def baseVerdictOfScore (score : ℚ) : String :=
  if score ≥ 75 then "STRONG BUY"
  else if score ≥ 50 then "BUY"
  else if score ≥ 30 then "ACCUMULATE"
  else if score < 20 then "SELL"
  else "HOLD"

/-- The two sequential base-verdict statements of `analyze_stock`: the score
ladder followed by the `Sector Check` downgrade
(`if sector_status == "BEARISH" and base_verdict in ["BUY", "STRONG BUY"]`). -/
def adjusted_base_verdict (latest : LatestRow) (sr_levels : SRLevels)
    (fundamentals : Fundamentals) (sentiment_score : ℚ) (sector_status : String)
    (catalyst_score : ℚ) : String :=
  let base_verdict :=
    baseVerdictOfScore (base_score latest sr_levels fundamentals sentiment_score catalyst_score)
  if sector_status = "BEARISH" ∧ (base_verdict = "BUY" ∨ base_verdict = "STRONG BUY") then
    "ACCUMULATE"
  else base_verdict

/-- One horizon block of the dict returned by `analyze_stock`
(`verdict` / `target` / `target_agg` / `sl` / `rr`). -/
structure HorizonOut where
  verdict : String
  target : ℚ
  target_agg : ℚ
  sl : ℚ
  rr : ℚ
deriving DecidableEq

/-- The dict returned by `analyze_stock` (`reasoning` text elided: it is a
formatted echo of the other fields and no claim mentions it). -/
structure StockAnalysis where
  st : HorizonOut
  mt : HorizonOut
  lt : HorizonOut
  risk_level : String
  ai_confidence : ℚ
deriving DecidableEq

/-- Projection of one `analyze_timeframe` result into the output dict shape. -/
def TfResult.toHorizonOut (r : TfResult) : HorizonOut :=
  { verdict := r.verdict
    target := r.target_conservative
    target_agg := r.target_aggressive
    sl := r.stop_loss
    rr := r.risk_reward }

/-- `analyze_stock(ticker, df, fundamentals, sentiment_score, ai_confidence,
forecast_df, sector, sector_status, catalyst_score)`.  The `ticker`, `sector`
and `forecast_df` parameters are accepted but never used by the source body;
they are kept in the signature to mirror it. -/
def analyze_stock (ticker : String) (latest : LatestRow) (sr_levels : SRLevels)
    (fundamentals : Fundamentals) (sentiment_score ai_confidence : ℚ)
    (forecast_df : List ℚ) (sector : String) (sector_status : String)
    (catalyst_score : ℚ) : StockAnalysis :=
  let current_price := latest.close
  let atr := latest.atr.getD (current_price * (2/100))
  let base_verdict :=
    adjusted_base_verdict latest sr_levels fundamentals sentiment_score sector_status
      catalyst_score
  let st_res := analyze_timeframe latest .short current_price atr base_verdict
  let mt_res := analyze_timeframe latest .mid current_price atr base_verdict
  let lt_res := analyze_timeframe latest .long current_price atr base_verdict
  let vol_pct := atr / current_price
  let risk_badge := determine_risk_level
    (fundamentals.altman_z_score.getD 3)
    (fundamentals.piotroski_f_score.getD 5)
    (fundamentals.beneish_m_score.getD (-3))
    vol_pct
  { st := st_res.toHorizonOut
    mt := mt_res.toHorizonOut
    lt := lt_res.toHorizonOut
    risk_level := risk_badge
    ai_confidence := ai_confidence }

/-! ## oms.py -/

/-- `trade['status']`: `'OPEN'` or `'CLOSED'`. -/
inductive TradeStatus where
  | OPEN
  | CLOSED
deriving DecidableEq

/-- The trade dict created by `place_order` and mutated by
`check_trailing_stops` / `close_trade`.  `exit_price` and `pnl` are `Option`
because those keys only exist after `close_trade`; timestamps and the `algo`
tag are elided (no claim mentions them) and the uuid string is a `Nat`. -/
structure Trade where
  id : Nat
  ticker : String
  direction : Side
  entry_price : ℚ
  quantity : ℤ
  sl : ℚ
  tp : ℚ
  status : TradeStatus
  instrument : InstrumentType
  est_cost : ℚ
  exit_price : Option ℚ
  pnl : Option ℚ
deriving DecidableEq

/-- The Redis-held OMS state: `bot:capital`, `bot:active`, `bot:trades`. -/
structure OMSState where
  capital : ℚ
  active : Bool
  trades : List Trade
deriving DecidableEq

/-- The realized-PnL sum computed by `get_status`
(`sum(t.get('pnl', 0) for t in trades if t['status'] == 'CLOSED')`). -/
def daily_pnl_of (trades : List Trade) : ℚ :=
  ((trades.filter (fun t => t.status = .CLOSED)).map (fun t => t.pnl.getD 0)).sum

/-- `OrderManagementSystem.start_bot`. -/
def start_bot (s : OMSState) : OMSState := { s with active := true }

/-- `OrderManagementSystem.stop_bot`. -/
def stop_bot (s : OMSState) : OMSState := { s with active := false }

/-- The outcomes of `place_order`: the `{"status": "failed", "reason": ...}` /
`{"status": "success", "trade": ...}` dicts, with each distinct reason string
as a constructor. -/
inductive OrderResult where
  | success (trade : Trade)
  | failedInactive
  | failedRiskBlock (reason : EntryReason)
  | failedZeroQuantity
  | failedInsufficientFund
deriving DecidableEq

/-- `OrderManagementSystem.place_order(ticker, direction, price, sl, tp,
instrument_type, algo)`.  `newId` stands for the generated uuid.  The hard-coded
`start_cap = 10000.0` of the source (oms.py line 76) appears verbatim. -/
def place_order (s : OMSState) (newId : Nat) (ticker : String) (direction : Side)
    (price sl tp : ℚ) (instrument_type : InstrumentType) : OrderResult × OMSState :=
  if s.active ≠ true then (.failedInactive, s)
  else
    let capital := s.capital
    let daily_pnl := daily_pnl_of s.trades
    let start_cap : ℚ := 10000
    let allowance := check_entry_allowance defaultRiskManager capital start_cap daily_pnl
    if allowance.1 ≠ true then (.failedRiskBlock allowance.2, s)
    else
      let quantity := calculate_position_size capital price sl (1/100)
      if quantity < 1 then (.failedZeroQuantity, s)
      else
        let est_cost := calculate_transaction_costs price quantity direction instrument_type
        let margin_needed :=
          if instrument_type.hasIntraday then price * quantity * (2/10)
          else price * quantity
        if margin_needed + est_cost > capital then (.failedInsufficientFund, s)
        else
          let trade : Trade :=
            { id := newId
              ticker := ticker
              direction := direction
              entry_price := price
              quantity := quantity
              sl := sl
              tp := tp
              status := .OPEN
              instrument := instrument_type
              est_cost := est_cost
              exit_price := none
              pnl := none }
          (.success trade, { s with trades := trade :: s.trades })

/-- The side passed to the exit-cost computation in `close_trade`
(`"SELL" if t['direction']=="BUY" else "BUY"`). -/
def Side.reversed : Side → Side
  | .BUY => .SELL
  | .SELL => .BUY

/-- The body of the `close_trade` loop: finds the first trade with the given id
that is OPEN, closes it, and reports the closed list together with the net PnL
added to the capital ledger. -/
def closeInList (trades : List Trade) (trade_id : Nat) (exit_price : ℚ) :
    Option (List Trade × ℚ) :=
  match trades with
  | [] => none
  | t :: rest =>
    if t.id = trade_id ∧ t.status = .OPEN then
      let raw_pnl := (exit_price - t.entry_price) * t.quantity
      let raw_pnl := if t.direction = .SELL then -raw_pnl else raw_pnl
      let entry_cost := t.est_cost
      let exit_cost := calculate_transaction_costs exit_price t.quantity
        t.direction.reversed t.instrument
      let net_pnl := raw_pnl - entry_cost - exit_cost
      let t := { t with
        status := .CLOSED
        exit_price := some exit_price
        pnl := some (round2 net_pnl) }
      some (t :: rest, net_pnl)
    else
      match closeInList rest trade_id exit_price with
      | some (rest, net_pnl) => some (t :: rest, net_pnl)
      | none => none

/-- `OrderManagementSystem.close_trade(trade_id, exit_price)`: returns the
`True`/`False` result and the updated state (capital bumped by the net PnL
when the trade is found). -/
def close_trade (s : OMSState) (trade_id : Nat) (exit_price : ℚ) : Bool × OMSState :=
  match closeInList s.trades trade_id exit_price with
  | some (trades, net_pnl) =>
    (true, { s with trades := trades, capital := s.capital + net_pnl })
  | none => (false, s)

/-- One entry of the `current_prices` dict passed to `check_trailing_stops`:
`{'price': ..., 'atr': ..., 'regime': ...}` (`atr` and `regime` are read with
`.get`, hence optional). -/
structure PriceInfo where
  price : ℚ
  atr : Option ℚ
  regime : Option String
deriving DecidableEq

/-- The per-trade step of the `check_trailing_stops` loop. -/
def trailTrade (current_prices : String → Option PriceInfo) (t : Trade) : Trade :=
  if t.status = .OPEN then
    match current_prices t.ticker with
    | some curr =>
      if t.direction = .BUY then
        let price := curr.price
        let current_sl := t.sl
        let new_sl := update_trailing_stop t.entry_price price current_sl
          (curr.atr.getD 0) (curr.regime.getD "NEUTRAL")
        if new_sl > current_sl then { t with sl := round2 new_sl }
        else t
      else t
    | none => t
  else t

/-- `OrderManagementSystem.check_trailing_stops(current_prices)`. -/
def check_trailing_stops (s : OMSState) (current_prices : String → Option PriceInfo) :
    OMSState :=
  { s with trades := s.trades.map (trailTrade current_prices) }

/-! ## Helper lemmas -/

theorem pyRoundInt_intCast (m : ℤ) : pyRoundInt (m : ℚ) = m := by
  simp [pyRoundInt]

theorem round2_intCast (m : ℤ) : round2 (m : ℚ) = (m : ℚ) := by
  unfold round2
  have h : (100 : ℚ) * (m : ℚ) = ((100 * m : ℤ) : ℚ) := by push_cast; ring
  rw [h, pyRoundInt_intCast]
  push_cast
  ring

theorem round2_idem (x : ℚ) : round2 (round2 x) = round2 x := by
  conv_lhs => rw [round2]
  have h : (100 : ℚ) * round2 x = ((pyRoundInt (100 * x) : ℤ) : ℚ) := by
    rw [round2]; field_simp
  rw [h, pyRoundInt_intCast]
  rfl

theorem round2_two : round2 (2 : ℚ) = 2 := by
  have h := round2_intCast 2
  norm_num at h
  exact h

theorem update_trailing_stop_eq_max (e c sl a : ℚ) (r : String) :
    update_trailing_stop e c sl a r = max (c - a * regimeMult r) sl := by
  unfold update_trailing_stop
  dsimp only
  split_ifs with h
  · exact (max_eq_left h.le).symm
  · exact (max_eq_right (not_lt.mp h)).symm

theorem le_update_trailing_stop (e c sl a : ℚ) (r : String) :
    sl ≤ update_trailing_stop e c sl a r := by
  rw [update_trailing_stop_eq_max]
  exact le_max_right _ _

/-- One recorded call in a sequence of trailing-stop updates. -/
structure TrailCall where
  entry : ℚ
  price : ℚ
  atr : ℚ
  regime : String

/-- Folding a sequence of `update_trailing_stop` calls over a starting stop. -/
def runTrailCalls (calls : List TrailCall) (sl : ℚ) : ℚ :=
  calls.foldl (fun s u => update_trailing_stop u.entry u.price s u.atr u.regime) sl

theorem le_runTrailCalls (calls : List TrailCall) : ∀ sl : ℚ, sl ≤ runTrailCalls calls sl := by
  induction calls with
  | nil => intro sl; simp [runTrailCalls]
  | cons u us ih =>
    intro sl
    calc sl ≤ update_trailing_stop u.entry u.price sl u.atr u.regime :=
          le_update_trailing_stop _ _ _ _ _
      _ ≤ runTrailCalls us (update_trailing_stop u.entry u.price sl u.atr u.regime) := ih _
      _ = runTrailCalls (u :: us) sl := rfl

/-! ## Claim theorems -/

/-- Claim C2 (confirmed): `update_trailing_stop` returns the greater of
`current_price - atr * multiplier` and `current_sl`, where the multiplier is
1.0 for the crash/high-volatility regimes, 3.0 for the confirmed-bull-trend
regime, and 2.0 otherwise; hence the returned stop is always at least
`current_sl`, and over any sequence of calls the stop never moves down
(monotonic ratchet). -/
theorem update_trailing_stop_ratchet :
    (∀ e c sl a : ℚ, ∀ r : String,
      update_trailing_stop e c sl a r = max (c - a * regimeMult r) sl) ∧
    regimeMult "HIGH_VOL_CRASH" = 1 ∧
    regimeMult "VOLATILE_COMMODITY" = 1 ∧
    regimeMult "BULL_TREND" = 3 ∧
    (∀ r : String, r ≠ "HIGH_VOL_CRASH" → r ≠ "VOLATILE_COMMODITY" →
      r ≠ "BULL_TREND" → regimeMult r = 2) ∧
    (∀ e c sl a : ℚ, ∀ r : String, sl ≤ update_trailing_stop e c sl a r) ∧
    (∀ calls : List TrailCall, ∀ sl : ℚ, sl ≤ runTrailCalls calls sl) := by
  refine ⟨update_trailing_stop_eq_max, by simp [regimeMult], by simp [regimeMult],
    by simp [regimeMult], ?_, le_update_trailing_stop, le_runTrailCalls⟩
  intro r h1 h2 h3
  simp [regimeMult, h1, h2, h3]

/-- Witness for C2: a concrete call in the default regime. -/
theorem update_trailing_stop_ratchet_witness :
    update_trailing_stop 0 100 80 5 "NEUTRAL" = max (100 - 5 * 2) 80 ∧
    (80 : ℚ) ≤ update_trailing_stop 0 100 80 5 "NEUTRAL" := by
  constructor
  · have h := update_trailing_stop_ratchet.1 0 100 80 5 "NEUTRAL"
    have h2 := update_trailing_stop_ratchet.2.2.2.2.1 "NEUTRAL"
      (by decide) (by decide) (by decide)
    rw [h, h2]
  · exact update_trailing_stop_ratchet.2.2.2.2.2.1 0 100 80 5 "NEUTRAL"

/-- Counterexample for C3: with capital 100, price 100, stop 50 and the default
1% risk budget the minimum-one-share rule returns quantity 1, and
`1 * |100 - 50| = 50` exceeds `100 * 0.01 + 1 = 2`. -/
theorem calculate_position_size_bound_cex :
    calculate_position_size 100 100 50 (1/100) = 1 ∧
    ¬((calculate_position_size 100 100 50 (1/100) : ℚ) * |(100 : ℚ) - 50| ≤
      100 * (1/100) + 1) := by
  constructor
  · norm_num [calculate_position_size, pyInt, max_def]
  · norm_num [calculate_position_size, pyInt, max_def]

/-- Claim C3 (amended): `calculate_position_size` returns 0 when `price = sl`;
otherwise, provided the risk budget `capital * risk_per_trade` is nonnegative,
it returns a quantity `q ≥ 1` with
`q * |price - sl| ≤ capital * risk_per_trade + |price - sl|` — the `+ 1`
rounding tolerance of the original claim only covers the case where the
risk-per-share does not exceed the risk budget, because of the
minimum-one-share rule. -/
theorem calculate_position_size_spec (capital price sl rpt : ℚ) :
    (price = sl → calculate_position_size capital price sl rpt = 0) ∧
    (price ≠ sl → 0 ≤ capital * rpt →
      1 ≤ calculate_position_size capital price sl rpt ∧
      (calculate_position_size capital price sl rpt : ℚ) * |price - sl| ≤
        capital * rpt + |price - sl|) := by
  constructor
  · intro h
    simp [calculate_position_size, h]
  · intro hne hra
    have hrps : (0 : ℚ) < |price - sl| := abs_pos.mpr (sub_ne_zero.mpr hne)
    have hif : ¬ (|price - sl| = 0) := ne_of_gt hrps
    unfold calculate_position_size
    dsimp only
    rw [if_neg hif]
    have hx : (0 : ℚ) ≤ capital * rpt / |price - sl| := div_nonneg hra hrps.le
    rw [pyInt, if_pos hx]
    refine ⟨le_max_left _ _, ?_⟩
    rcases le_or_lt (⌊capital * rpt / |price - sl|⌋ : ℤ) 1 with hle | hgt
    · rw [max_eq_left hle]
      push_cast
      nlinarith [hrps, hra]
    · rw [max_eq_right hgt.le]
      have hfl : (⌊capital * rpt / |price - sl|⌋ : ℚ) ≤ capital * rpt / |price - sl| :=
        Int.floor_le _
      have := (mul_le_mul_right hrps).mpr hfl
      rw [div_mul_cancel₀ _ (ne_of_gt hrps)] at this
      linarith

/-- Witness for C3: the spec scenario capital 100000, entry 100, stop 90. -/
theorem calculate_position_size_spec_witness :
    1 ≤ calculate_position_size 100000 100 90 (1/100) ∧
    (calculate_position_size 100000 100 90 (1/100) : ℚ) * |(100 : ℚ) - 90| ≤
      100000 * (1/100) + |(100 : ℚ) - 90| :=
  (calculate_position_size_spec 100000 100 90 (1/100)).2 (by norm_num) (by norm_num)

/-- Claim C9 (confirmed): `place_order` never modifies the capital ledger
(success or rejection), and neither do `check_trailing_stops`, `start_bot` or
`stop_bot`; of the OMS operations only `close_trade` writes `bot:capital`. -/
theorem oms_capital_frame :
    (∀ (s : OMSState) (newId : Nat) (tic : String) (dir : Side) (price sl tp : ℚ)
      (instr : InstrumentType),
      (place_order s newId tic dir price sl tp instr).2.capital = s.capital) ∧
    (∀ (s : OMSState) (p : String → Option PriceInfo),
      (check_trailing_stops s p).capital = s.capital) ∧
    (∀ s : OMSState, (start_bot s).capital = s.capital) ∧
    (∀ s : OMSState, (stop_bot s).capital = s.capital) := by
  refine ⟨?_, ?_, ?_, ?_⟩
  · intro s newId tic dir price sl tp instr
    unfold place_order
    dsimp only
    split_ifs <;> rfl
  · intro s p; rfl
  · intro s; rfl
  · intro s; rfl

/-- Claim C10 (confirmed): `place_order` evaluates the drawdown gate against
the hard-coded start capital 10000.0, so (with the default 5% ceiling of the
singleton `risk_manager`) an order is risk-blocked for drawdown exactly when
the bot is active and `(10000 - current_capital) / 10000 > 0.05`, whatever the
ledger's actual initial capital was. -/
theorem place_order_drawdown_gate (s : OMSState) (newId : Nat) (tic : String)
    (dir : Side) (price sl tp : ℚ) (instr : InstrumentType) :
    (place_order s newId tic dir price sl tp instr).1 =
      OrderResult.failedRiskBlock .totalDrawdownBreach ↔
    (s.active = true ∧ (10000 - s.capital) / 10000 > 5/100) := by
  unfold place_order check_entry_allowance defaultRiskManager
  dsimp only
  split_ifs with h1 h2 h3 h4 h5 <;>
    simp_all

theorem trailTrade_eq (p : String → Option PriceInfo) (t : Trade) (curr : PriceInfo)
    (hs : t.status = .OPEN) (hp : p t.ticker = some curr) (hd : t.direction = .BUY) :
    trailTrade p t =
      (if curr.price - curr.atr.getD 0 * regimeMult (curr.regime.getD "NEUTRAL") > t.sl
       then { t with
         sl := round2 (curr.price - curr.atr.getD 0 * regimeMult (curr.regime.getD "NEUTRAL")) }
       else t) := by
  unfold trailTrade update_trailing_stop
  rw [hp]
  simp only [hs, hd, if_true, reduceIte]
  by_cases hc : curr.price - curr.atr.getD 0 * regimeMult (curr.regime.getD "NEUTRAL") > t.sl
  · simp [hc]
  · simp [hc]

theorem trailTrade_not_buy (p : String → Option PriceInfo) (t : Trade)
    (h : ¬ (t.status = .OPEN ∧ (p t.ticker).isSome ∧ t.direction = .BUY)) :
    trailTrade p t = t := by
  unfold trailTrade
  by_cases hs : t.status = .OPEN
  · cases hp : p t.ticker with
    | none => simp [hs]
    | some curr =>
      have hd : ¬ t.direction = .BUY := by
        intro hd
        exact h ⟨hs, by rw [hp]; rfl, hd⟩
      simp [hs, hd]
  · simp [hs]

theorem trailTrade_idem (p : String → Option PriceInfo) (t : Trade) :
    trailTrade p (trailTrade p t) = trailTrade p t := by
  by_cases hall : t.status = .OPEN ∧ (p t.ticker).isSome ∧ t.direction = .BUY
  · obtain ⟨hs, hps, hd⟩ := hall
    obtain ⟨curr, hp⟩ := Option.isSome_iff_exists.mp hps
    set c := curr.price - curr.atr.getD 0 * regimeMult (curr.regime.getD "NEUTRAL") with hc0
    have key := trailTrade_eq p t curr hs hp hd
    rw [← hc0] at key
    by_cases hcgt : c > t.sl
    · rw [if_pos hcgt] at key
      rw [key]
      have key2 := trailTrade_eq p { t with sl := round2 c } curr hs hp hd
      rw [← hc0] at key2
      dsimp only at key2
      by_cases hc2 : c > round2 c
      · rw [if_pos hc2] at key2
        rw [key2]
      · rw [if_neg hc2] at key2
        rw [key2]
    · rw [if_neg hcgt] at key
      rw [key]
      exact key
  · have h1 := trailTrade_not_buy p t hall
    rw [h1]
    exact h1

theorem map_trailTrade_idem (p : String → Option PriceInfo) (l : List Trade) :
    (l.map (trailTrade p)).map (trailTrade p) = l.map (trailTrade p) := by
  induction l with
  | nil => rfl
  | cons a l ih => simp [trailTrade_idem, ih]

/-- Claim C8 (confirmed): `check_trailing_stops` is idempotent — a second call
with the same `current_prices` leaves the whole state (in particular every
trade's stop-loss field) unchanged; the state reached after the first call is a
fixed point. -/
theorem check_trailing_stops_idem (s : OMSState) (p : String → Option PriceInfo) :
    check_trailing_stops (check_trailing_stops s p) p = check_trailing_stops s p := by
  unfold check_trailing_stops
  simp only [map_trailTrade_idem]

theorem closeInList_head (t : Trade) (rest : List Trade) (exit_price : ℚ)
    (hs : t.status = .OPEN) :
    closeInList (t :: rest) t.id exit_price =
      some ({ t with
          status := .CLOSED
          exit_price := some exit_price
          pnl := some (round2
            ((if t.direction = .SELL then -((exit_price - t.entry_price) * t.quantity)
              else (exit_price - t.entry_price) * t.quantity)
             - t.est_cost
             - calculate_transaction_costs exit_price t.quantity t.direction.reversed
                 t.instrument)) } :: rest,
        (if t.direction = .SELL then -((exit_price - t.entry_price) * t.quantity)
         else (exit_price - t.entry_price) * t.quantity)
        - t.est_cost
        - calculate_transaction_costs exit_price t.quantity t.direction.reversed
            t.instrument) := by
  simp only [closeInList]
  rw [if_pos ⟨trivial, hs⟩]

theorem close_trade_of_closeInList (s : OMSState) (id : Nat) (xp : ℚ)
    (trades' : List Trade) (net : ℚ) (h : closeInList s.trades id xp = some (trades', net)) :
    close_trade s id xp = (true, { s with trades := trades', capital := s.capital + net }) := by
  unfold close_trade
  rw [h]

/-- Claim C6 (confirmed): a successful `place_order` at price `p` immediately
followed by `close_trade` of that trade at exit price `p` records
`pnl = round2 (-(entry_cost + exit_cost))` on the trade (2-decimal rounding of
minus the total transaction costs) and moves the capital ledger down by exactly
`entry_cost + exit_cost`, the unrounded net amount. -/
theorem place_close_roundtrip (s : OMSState) (newId : Nat) (tic : String) (dir : Side)
    (price sl tp : ℚ) (instr : InstrumentType) (t : Trade) (s1 : OMSState)
    (h : place_order s newId tic dir price sl tp instr = (.success t, s1)) :
    (close_trade s1 t.id price).1 = true ∧
    (close_trade s1 t.id price).2.capital =
      s.capital -
        (t.est_cost + calculate_transaction_costs price t.quantity dir.reversed instr) ∧
    (close_trade s1 t.id price).2.trades.head?.map Trade.pnl =
      some (some (round2
        (-(t.est_cost + calculate_transaction_costs price t.quantity dir.reversed instr)))) := by
  have hmain : ∀ tr : Trade, tr.status = .OPEN → tr.direction = dir →
      tr.entry_price = price → tr.instrument = instr → s1 = { s with trades := tr :: s.trades } →
      tr = t →
      (close_trade s1 t.id price).1 = true ∧
      (close_trade s1 t.id price).2.capital =
        s.capital -
          (t.est_cost + calculate_transaction_costs price t.quantity dir.reversed instr) ∧
      (close_trade s1 t.id price).2.trades.head?.map Trade.pnl =
        some (some (round2
          (-(t.est_cost +
             calculate_transaction_costs price t.quantity dir.reversed instr)))) := by
    intro tr hs hdir hentry hinstr hs1 htr
    subst htr
    subst hs1
    have hcl := closeInList_head tr s.trades price hs
    have hct := close_trade_of_closeInList { s with trades := tr :: s.trades }
      tr.id price _ _ hcl
    rw [hct]
    rw [hentry] at *
    refine ⟨rfl, ?_, ?_⟩
    · dsimp only
      rw [hdir, hinstr]
      simp only [sub_self, zero_mul, neg_zero, ite_self]
      ring
    · dsimp only
      rw [hdir, hinstr]
      simp only [sub_self, zero_mul, neg_zero, ite_self, List.head?_cons]
      have harg : (0 : ℚ) - tr.est_cost -
          calculate_transaction_costs price tr.quantity dir.reversed instr =
          -(tr.est_cost + calculate_transaction_costs price tr.quantity dir.reversed instr) := by
        ring
      rw [harg]
      rfl
  unfold place_order at h
  dsimp only at h
  split_ifs at h with h1 h2 h3 h4 h5 h6
  · simp at h
  · simp at h
  · simp at h
  · simp at h
  · rw [Prod.mk.injEq, OrderResult.success.injEq] at h
    exact hmain _ rfl rfl rfl rfl h.2.symm h.1
  · simp at h
  · rw [Prod.mk.injEq, OrderResult.success.injEq] at h
    exact hmain _ rfl rfl rfl rfl h.2.symm h.1

/-! ## Lemmas about the rules engine -/

theorem baseVerdictOfScore_cases (score : ℚ) :
    baseVerdictOfScore score = "STRONG BUY" ∨ baseVerdictOfScore score = "BUY" ∨
    baseVerdictOfScore score = "ACCUMULATE" ∨ baseVerdictOfScore score = "SELL" ∨
    baseVerdictOfScore score = "HOLD" := by
  unfold baseVerdictOfScore
  split_ifs <;> simp

theorem adjusted_base_verdict_cases (latest : LatestRow) (sr : SRLevels) (f : Fundamentals)
    (sent : ℚ) (secst : String) (cat : ℚ) :
    adjusted_base_verdict latest sr f sent secst cat = "STRONG BUY" ∨
    adjusted_base_verdict latest sr f sent secst cat = "BUY" ∨
    adjusted_base_verdict latest sr f sent secst cat = "ACCUMULATE" ∨
    adjusted_base_verdict latest sr f sent secst cat = "SELL" ∨
    adjusted_base_verdict latest sr f sent secst cat = "HOLD" := by
  unfold adjusted_base_verdict
  dsimp only
  split_ifs with h
  · simp
  · exact baseVerdictOfScore_cases _

theorem adjusted_base_verdict_ne_avoid (latest : LatestRow) (sr : SRLevels)
    (f : Fundamentals) (sent : ℚ) (secst : String) (cat : ℚ) :
    adjusted_base_verdict latest sr f sent secst cat ≠ "AVOID" := by
  rcases adjusted_base_verdict_cases latest sr f sent secst cat with h | h | h | h | h <;>
    rw [h] <;> simp

theorem tfFinish_verdict (cp atr : ℚ) (term : Term) (v trend : String) :
    (tfFinish cp atr term v trend).verdict = v := rfl

theorem analyze_timeframe_eq_tfFinish (latest : LatestRow) (term : Term) (cp atr : ℚ)
    (bv : String) :
    analyze_timeframe latest term cp atr bv =
      tfFinish cp atr term (analyze_timeframe latest term cp atr bv).verdict
        (analyze_timeframe latest term cp atr bv).trend := rfl

theorem analyze_timeframe_verdict_cases (latest : LatestRow) (term : Term) (cp atr : ℚ)
    (bv : String) :
    (analyze_timeframe latest term cp atr bv).verdict = bv ∨
    (analyze_timeframe latest term cp atr bv).verdict = "ACCUMULATE" ∨
    (analyze_timeframe latest term cp atr bv).verdict = "HOLD" := by
  unfold analyze_timeframe
  dsimp only [tfFinish_verdict]
  split_ifs <;> simp [tfFinish_verdict]

theorem analyze_timeframe_ne_avoid (latest : LatestRow) (term : Term) (cp atr : ℚ)
    (bv : String) (hbv : bv ≠ "AVOID") :
    (analyze_timeframe latest term cp atr bv).verdict ≠ "AVOID" := by
  rcases analyze_timeframe_verdict_cases latest term cp atr bv with h | h | h <;> rw [h]
  · exact hbv
  · simp
  · simp

theorem analyze_timeframe_accumulate (latest : LatestRow) (term : Term) (cp atr : ℚ) :
    (analyze_timeframe latest term cp atr "ACCUMULATE").verdict = "ACCUMULATE" := by
  unfold analyze_timeframe
  dsimp only
  simp [tfFinish_verdict]

theorem determine_risk_level_high (a p b v : ℚ) (ha : a < 9/5) (hb : b > -(89/50)) :
    determine_risk_level a p b v = "HIGH" := by
  unfold determine_risk_level
  dsimp only
  rw [if_pos ha, if_pos hb]
  split_ifs <;> simp_all

theorem analyze_stock_risk_level (tic : String) (latest : LatestRow) (sr : SRLevels)
    (f : Fundamentals) (sent conf : ℚ) (fc : List ℚ) (sec secst : String) (cat : ℚ) :
    (analyze_stock tic latest sr f sent conf fc sec secst cat).risk_level =
      determine_risk_level (f.altman_z_score.getD 3) (f.piotroski_f_score.getD 5)
        (f.beneish_m_score.getD (-3))
        (latest.atr.getD (latest.close * (2/100)) / latest.close) := rfl

theorem analyze_stock_st_verdict (tic : String) (latest : LatestRow) (sr : SRLevels)
    (f : Fundamentals) (sent conf : ℚ) (fc : List ℚ) (sec secst : String) (cat : ℚ) :
    (analyze_stock tic latest sr f sent conf fc sec secst cat).st.verdict =
      (analyze_timeframe latest .short latest.close (latest.atr.getD (latest.close * (2/100)))
        (adjusted_base_verdict latest sr f sent secst cat)).verdict := rfl

theorem analyze_stock_mt_verdict (tic : String) (latest : LatestRow) (sr : SRLevels)
    (f : Fundamentals) (sent conf : ℚ) (fc : List ℚ) (sec secst : String) (cat : ℚ) :
    (analyze_stock tic latest sr f sent conf fc sec secst cat).mt.verdict =
      (analyze_timeframe latest .mid latest.close (latest.atr.getD (latest.close * (2/100)))
        (adjusted_base_verdict latest sr f sent secst cat)).verdict := rfl

theorem analyze_stock_lt_verdict (tic : String) (latest : LatestRow) (sr : SRLevels)
    (f : Fundamentals) (sent conf : ℚ) (fc : List ℚ) (sec secst : String) (cat : ℚ) :
    (analyze_stock tic latest sr f sent conf fc sec secst cat).lt.verdict =
      (analyze_timeframe latest .long latest.close (latest.atr.getD (latest.close * (2/100)))
        (adjusted_base_verdict latest sr f sent secst cat)).verdict := rfl

theorem analyze_stock_mt_target (tic : String) (latest : LatestRow) (sr : SRLevels)
    (f : Fundamentals) (sent conf : ℚ) (fc : List ℚ) (sec secst : String) (cat : ℚ) :
    (analyze_stock tic latest sr f sent conf fc sec secst cat).mt.target =
      (analyze_timeframe latest .mid latest.close (latest.atr.getD (latest.close * (2/100)))
        (adjusted_base_verdict latest sr f sent secst cat)).target_conservative := rfl

theorem round2_calculate_stop_loss (cp atr : ℚ) (term : Term) (d : TradeDir) :
    round2 (calculate_stop_loss cp atr term d) = calculate_stop_loss cp atr term d := by
  unfold calculate_stop_loss
  dsimp only
  exact round2_idem _

theorem riskOf_pos (cp stop : ℚ) (hcp : 0 < cp) : 0 < riskOf cp stop := by
  unfold riskOf
  dsimp only
  split_ifs with h
  · positivity
  · exact lt_of_le_of_ne (abs_nonneg _) (Ne.symm h)

theorem tfFinish_long (cp atr : ℚ) (term : Term) (v trend : String) (hv : v ≠ "SELL") :
    (tfFinish cp atr term v trend).stop_loss = calculate_stop_loss cp atr term .LONG ∧
    (tfFinish cp atr term v trend).target_conservative =
      round2 (cp + riskOf cp (calculate_stop_loss cp atr term .LONG) * 2) ∧
    (tfFinish cp atr term v trend).target_aggressive =
      round2 (cp + riskOf cp (calculate_stop_loss cp atr term .LONG) * (7/2)) := by
  unfold tfFinish
  dsimp only
  rw [if_neg hv]
  simp only [reduceCtorEq, reduceIte, if_true]
  refine ⟨?_, ?_, ?_⟩ <;> first
    | exact round2_calculate_stop_loss cp atr term .LONG
    | trivial

theorem tfFinish_short (cp atr : ℚ) (term : Term) (v trend : String) (hv : v = "SELL") :
    (tfFinish cp atr term v trend).stop_loss = calculate_stop_loss cp atr term .SHORT ∧
    (tfFinish cp atr term v trend).target_conservative =
      round2 (cp - riskOf cp (calculate_stop_loss cp atr term .SHORT) * 2) ∧
    (tfFinish cp atr term v trend).target_aggressive =
      round2 (cp - riskOf cp (calculate_stop_loss cp atr term .SHORT) * (7/2)) := by
  unfold tfFinish
  dsimp only
  rw [if_pos hv]
  simp only [reduceCtorEq, reduceIte, if_false]
  refine ⟨?_, ?_, ?_⟩ <;> first
    | exact round2_calculate_stop_loss cp atr term .SHORT
    | trivial

theorem tfFinish_rr (cp atr : ℚ) (term : Term) (v trend : String) (hcp : 0 < cp) :
    (tfFinish cp atr term v trend).risk_reward = 2 := by
  unfold tfFinish
  dsimp only
  by_cases hv : v = "SELL"
  · rw [if_pos hv]
    simp only [reduceCtorEq, reduceIte, if_false]
    have hr : 0 < riskOf cp (calculate_stop_loss cp atr term .SHORT) :=
      riskOf_pos _ _ hcp
    have habs : |cp - riskOf cp (calculate_stop_loss cp atr term .SHORT) * 2 - cp| =
        riskOf cp (calculate_stop_loss cp atr term .SHORT) * 2 := by
      rw [show cp - riskOf cp (calculate_stop_loss cp atr term .SHORT) * 2 - cp =
        -(riskOf cp (calculate_stop_loss cp atr term .SHORT) * 2) by ring]
      rw [abs_neg]
      exact abs_of_nonneg (by positivity)
    rw [habs, mul_comm, mul_div_assoc, div_self (ne_of_gt hr), mul_one]
    exact round2_two
  · rw [if_neg hv]
    simp only [reduceCtorEq, reduceIte, if_true]
    have hr : 0 < riskOf cp (calculate_stop_loss cp atr term .LONG) :=
      riskOf_pos _ _ hcp
    have habs : |cp + riskOf cp (calculate_stop_loss cp atr term .LONG) * 2 - cp| =
        riskOf cp (calculate_stop_loss cp atr term .LONG) * 2 := by
      rw [show cp + riskOf cp (calculate_stop_loss cp atr term .LONG) * 2 - cp =
        riskOf cp (calculate_stop_loss cp atr term .LONG) * 2 by ring]
      exact abs_of_nonneg (by positivity)
    rw [habs, mul_comm, mul_div_assoc, div_self (ne_of_gt hr), mul_one]
    exact round2_two

/-! ## Concrete inputs for witnesses and counterexamples -/

/-- A concrete feature row: price 100 above all EMAs, neutral RSI, bullish
MACD, no volume spike, ATR 2. -/
def latestC1 : LatestRow :=
  { close := 100, ema_20 := 90, ema_50 := 90, ema_200 := 90, rsi := 50,
    macd := 1, macd_signal := 0, vol_spike := false, atr := some 2 }

/-- Fundamentals in Altman distress (Z = 1 < 1.8) with Beneish manipulation
flag (M = 0 > −1.78). -/
def fundC1 : Fundamentals :=
  { piotroski_f_score := none, revenue_growth := none,
    altman_z_score := some 1, beneish_m_score := some 0 }

def latestC4 : LatestRow :=
  { close := 100, ema_20 := 90, ema_50 := 90, ema_200 := 90, rsi := 50,
    macd := 1, macd_signal := 0, vol_spike := false, atr := some 2 }

/-- Fundamentals with every key absent (Altman defaults to 3: no distress). -/
def fundC4 : Fundamentals :=
  { piotroski_f_score := none, revenue_growth := none,
    altman_z_score := none, beneish_m_score := none }

def latestC5 : LatestRow :=
  { close := 100, ema_20 := 90, ema_50 := 90, ema_200 := 90, rsi := 50,
    macd := 1, macd_signal := 0, vol_spike := false, atr := some 2 }

/-- A feature row whose base score is exactly 50 with zero sentiment:
+10 (RSI in 40..70), +20 (close above EMA50), +15 (MACD cross),
+5 (volume spike). -/
def latestC7 : LatestRow :=
  { close := 100, ema_20 := 90, ema_50 := 90, ema_200 := 90, rsi := 50,
    macd := 1, macd_signal := 0, vol_spike := true, atr := some 2 }

def fundC7 : Fundamentals :=
  { piotroski_f_score := none, revenue_growth := none,
    altman_z_score := none, beneish_m_score := none }

/-- A fresh OMS state: default capital 10000, bot active, empty trade log. -/
def omsS0 : OMSState := { capital := 10000, active := true, trades := [] }

/-- The trade `place_order` creates from `omsS0` for a BUY of 10 shares at 100
with stop 90 (intraday equity: entry cost 0.07). -/
def tradeW : Trade :=
  { id := 0, ticker := "X", direction := .BUY, entry_price := 100, quantity := 10,
    sl := 90, tp := 120, status := .OPEN, instrument := .EQUITY_INTRADAY,
    est_cost := 7/100, exit_price := none, pnl := none }

def omsS1 : OMSState := { capital := 10000, active := true, trades := [tradeW] }

/-- Witness for C6: opening a BUY of 10 shares at 100 from the fresh state and
closing it at 100 loses exactly the entry and exit transaction costs. -/
theorem place_close_roundtrip_witness :
    (close_trade omsS1 tradeW.id 100).1 = true ∧
    (close_trade omsS1 tradeW.id 100).2.capital =
      omsS0.capital -
        (tradeW.est_cost +
          calculate_transaction_costs 100 tradeW.quantity Side.BUY.reversed
            InstrumentType.EQUITY_INTRADAY) ∧
    (close_trade omsS1 tradeW.id 100).2.trades.head?.map Trade.pnl =
      some (some (round2
        (-(tradeW.est_cost +
           calculate_transaction_costs 100 tradeW.quantity Side.BUY.reversed
             InstrumentType.EQUITY_INTRADAY)))) :=
  place_close_roundtrip omsS0 0 "X" .BUY 100 90 120 .EQUITY_INTRADAY tradeW omsS1 (by
    simp [place_order, check_entry_allowance, defaultRiskManager, daily_pnl_of,
      calculate_position_size, pyInt, calculate_transaction_costs, round2, pyRoundInt,
      max_def, omsS0, tradeW, omsS1, InstrumentType.hasIntraday, InstrumentType.hasEquity,
      InstrumentType.hasCommodity, InstrumentType.hasCurrency, InstrumentType.hasFuturesSub,
      InstrumentType.hasOptionsSub]
    norm_num [Int.fract])

/-! ## Remaining claim theorems -/

/-- Claim C1 (amended): the code has no AVOID verdict and no veto path.
Altman Z < 1.8 together with Beneish M > −1.78 forces only the risk badge to
HIGH (+3 and +2 risk points respectively, reaching the HIGH threshold of 5);
no horizon verdict is ever AVOID, whatever the scores or the sector. -/
theorem distress_riskbadge_no_avoid (tic : String) (latest : LatestRow) (sr : SRLevels)
    (f : Fundamentals) (sent conf : ℚ) (fc : List ℚ) (sec secst : String) (cat : ℚ) :
    (f.altman_z_score.getD 3 < 9/5 → f.beneish_m_score.getD (-3) > -(89/50) →
      (analyze_stock tic latest sr f sent conf fc sec secst cat).risk_level = "HIGH") ∧
    (analyze_stock tic latest sr f sent conf fc sec secst cat).st.verdict ≠ "AVOID" ∧
    (analyze_stock tic latest sr f sent conf fc sec secst cat).mt.verdict ≠ "AVOID" ∧
    (analyze_stock tic latest sr f sent conf fc sec secst cat).lt.verdict ≠ "AVOID" := by
  refine ⟨?_, ?_, ?_, ?_⟩
  · intro ha hb
    rw [analyze_stock_risk_level]
    exact determine_risk_level_high _ _ _ _ ha hb
  · rw [analyze_stock_st_verdict]
    exact analyze_timeframe_ne_avoid _ _ _ _ _ (adjusted_base_verdict_ne_avoid _ _ _ _ _ _)
  · rw [analyze_stock_mt_verdict]
    exact analyze_timeframe_ne_avoid _ _ _ _ _ (adjusted_base_verdict_ne_avoid _ _ _ _ _ _)
  · rw [analyze_stock_lt_verdict]
    exact analyze_timeframe_ne_avoid _ _ _ _ _ (adjusted_base_verdict_ne_avoid _ _ _ _ _ _)

/-- Witness for C1 at a concrete distressed input. -/
theorem distress_riskbadge_no_avoid_witness :
    (analyze_stock "X" latestC1 [] fundC1 (1/2) (1/2) [95] "Technology" "NEUTRAL" 0).risk_level =
      "HIGH" ∧
    (analyze_stock "X" latestC1 [] fundC1 (1/2) (1/2) [95] "Technology" "NEUTRAL" 0).st.verdict ≠
      "AVOID" :=
  ⟨(distress_riskbadge_no_avoid "X" latestC1 [] fundC1 (1/2) (1/2) [95] "Technology"
      "NEUTRAL" 0).1 (by norm_num [fundC1]) (by norm_num [fundC1]),
   (distress_riskbadge_no_avoid "X" latestC1 [] fundC1 (1/2) (1/2) [95] "Technology"
      "NEUTRAL" 0).2.1⟩

/-- Counterexample for C1: Altman Z = 1 (< 1.8), Beneish M = 0 (> −1.78), a
non-capital-intensive sector (`"Technology"`) — yet no horizon verdict is
AVOID. -/
theorem altman_beneish_veto_cex :
    fundC1.altman_z_score.getD 3 < 9/5 ∧
    fundC1.beneish_m_score.getD (-3) > -(89/50) ∧
    (analyze_stock "X" latestC1 [] fundC1 (1/2) (1/2) [95] "Technology" "NEUTRAL" 0).st.verdict ≠
      "AVOID" ∧
    (analyze_stock "X" latestC1 [] fundC1 (1/2) (1/2) [95] "Technology" "NEUTRAL" 0).mt.verdict ≠
      "AVOID" ∧
    (analyze_stock "X" latestC1 [] fundC1 (1/2) (1/2) [95] "Technology" "NEUTRAL" 0).lt.verdict ≠
      "AVOID" := by
  refine ⟨by norm_num [fundC1], by norm_num [fundC1], ?_, ?_, ?_⟩
  · rw [analyze_stock_st_verdict]
    exact analyze_timeframe_ne_avoid _ _ _ _ _ (adjusted_base_verdict_ne_avoid _ _ _ _ _ _)
  · rw [analyze_stock_mt_verdict]
    exact analyze_timeframe_ne_avoid _ _ _ _ _ (adjusted_base_verdict_ne_avoid _ _ _ _ _ _)
  · rw [analyze_stock_lt_verdict]
    exact analyze_timeframe_ne_avoid _ _ _ _ _ (adjusted_base_verdict_ne_avoid _ _ _ _ _ _)

/-- Claim C7 (confirmed): with a BEARISH sector and a base verdict of BUY or
STRONG BUY, every final per-horizon verdict is ACCUMULATE or HOLD (in fact
always ACCUMULATE) and never BUY or STRONG BUY. -/
theorem bearish_sector_downgrade (tic : String) (latest : LatestRow) (sr : SRLevels)
    (f : Fundamentals) (sent conf : ℚ) (fc : List ℚ) (sec : String) (cat : ℚ)
    (hbv : baseVerdictOfScore (base_score latest sr f sent cat) = "BUY" ∨
      baseVerdictOfScore (base_score latest sr f sent cat) = "STRONG BUY") :
    (((analyze_stock tic latest sr f sent conf fc sec "BEARISH" cat).st.verdict =
        "ACCUMULATE" ∨
      (analyze_stock tic latest sr f sent conf fc sec "BEARISH" cat).st.verdict = "HOLD") ∧
     (analyze_stock tic latest sr f sent conf fc sec "BEARISH" cat).st.verdict ≠ "BUY" ∧
     (analyze_stock tic latest sr f sent conf fc sec "BEARISH" cat).st.verdict ≠
       "STRONG BUY") ∧
    (((analyze_stock tic latest sr f sent conf fc sec "BEARISH" cat).mt.verdict =
        "ACCUMULATE" ∨
      (analyze_stock tic latest sr f sent conf fc sec "BEARISH" cat).mt.verdict = "HOLD") ∧
     (analyze_stock tic latest sr f sent conf fc sec "BEARISH" cat).mt.verdict ≠ "BUY" ∧
     (analyze_stock tic latest sr f sent conf fc sec "BEARISH" cat).mt.verdict ≠
       "STRONG BUY") ∧
    (((analyze_stock tic latest sr f sent conf fc sec "BEARISH" cat).lt.verdict =
        "ACCUMULATE" ∨
      (analyze_stock tic latest sr f sent conf fc sec "BEARISH" cat).lt.verdict = "HOLD") ∧
     (analyze_stock tic latest sr f sent conf fc sec "BEARISH" cat).lt.verdict ≠ "BUY" ∧
     (analyze_stock tic latest sr f sent conf fc sec "BEARISH" cat).lt.verdict ≠
       "STRONG BUY") := by
  have hadj : adjusted_base_verdict latest sr f sent "BEARISH" cat = "ACCUMULATE" := by
    unfold adjusted_base_verdict
    dsimp only
    rw [if_pos ⟨rfl, hbv⟩]
  have h1 : (analyze_stock tic latest sr f sent conf fc sec "BEARISH" cat).st.verdict =
      "ACCUMULATE" := by
    rw [analyze_stock_st_verdict, hadj]
    exact analyze_timeframe_accumulate _ _ _ _
  have h2 : (analyze_stock tic latest sr f sent conf fc sec "BEARISH" cat).mt.verdict =
      "ACCUMULATE" := by
    rw [analyze_stock_mt_verdict, hadj]
    exact analyze_timeframe_accumulate _ _ _ _
  have h3 : (analyze_stock tic latest sr f sent conf fc sec "BEARISH" cat).lt.verdict =
      "ACCUMULATE" := by
    rw [analyze_stock_lt_verdict, hadj]
    exact analyze_timeframe_accumulate _ _ _ _
  simp [h1, h2, h3]

/-- Witness for C7: a concrete row with base score 50 (BUY) under a BEARISH
sector. -/
theorem bearish_sector_downgrade_witness :
    ((analyze_stock "X" latestC7 [] fundC7 0 0 [] "IT" "BEARISH" 0).st.verdict =
        "ACCUMULATE" ∨
      (analyze_stock "X" latestC7 [] fundC7 0 0 [] "IT" "BEARISH" 0).st.verdict = "HOLD") ∧
    (analyze_stock "X" latestC7 [] fundC7 0 0 [] "IT" "BEARISH" 0).st.verdict ≠ "BUY" ∧
    (analyze_stock "X" latestC7 [] fundC7 0 0 [] "IT" "BEARISH" 0).st.verdict ≠
      "STRONG BUY" :=
  (bearish_sector_downgrade "X" latestC7 [] fundC7 0 0 [] "IT" 0
    (Or.inl (by
      simp [baseVerdictOfScore, base_score, listMaxD, listMinD, latestC7, fundC7]
      norm_num))).1

/-- Claim C4 (amended): there is no momentum/turnaround override —
`analyze_stock` ignores `forecast_df` entirely, so its output is identical for
any two forecast inputs; targets always come from the ATR-based stop, never
from `current_price + atr * (3/8/15)`. -/
theorem analyze_stock_ignores_forecast (tic : String) (latest : LatestRow) (sr : SRLevels)
    (f : Fundamentals) (sent conf : ℚ) (fc1 fc2 : List ℚ) (sec secst : String) (cat : ℚ) :
    analyze_stock tic latest sr f sent conf fc1 sec secst cat =
      analyze_stock tic latest sr f sent conf fc2 sec secst cat := rfl

/-- Counterexample for C4: price 100 above EMA50 (90), sentiment 0.5 > 0.1,
nearest-horizon forecast 95 below price, no Altman distress — yet the mid
horizon target is `round2 (100 + riskOf * 2) = 110`, not the claimed
`current_price + atr * 8 = 116`. -/
theorem momentum_override_cex :
    latestC4.close > latestC4.ema_50 ∧
    ((1 : ℚ)/2) > 1/10 ∧
    (95 : ℚ) < latestC4.close ∧
    ¬ (fundC4.altman_z_score.getD 3 < 9/5) ∧
    (analyze_stock "X" latestC4 [] fundC4 (1/2) (1/2) [95] "IT" "NEUTRAL" 0).mt.target ≠
      round2 (latestC4.close + latestC4.atr.getD (latestC4.close * (2/100)) * 8) := by
  refine ⟨by norm_num [latestC4], by norm_num, by norm_num [latestC4],
    by norm_num [fundC4], ?_⟩
  have hscore : base_score latestC4 [] fundC4 (1/2) 0 = 55 := by
    simp [base_score, listMaxD, listMinD, latestC4, fundC4]
    norm_num
  have hbv : adjusted_base_verdict latestC4 [] fundC4 (1/2) "NEUTRAL" 0 = "BUY" := by
    simp only [adjusted_base_verdict, baseVerdictOfScore, hscore]
    norm_num
    simp
  have hv : (analyze_timeframe latestC4 .mid latestC4.close
      (latestC4.atr.getD (latestC4.close * (2/100))) "BUY").verdict ≠ "SELL" := by
    rcases analyze_timeframe_verdict_cases latestC4 .mid latestC4.close
      (latestC4.atr.getD (latestC4.close * (2/100))) "BUY" with h | h | h <;>
      rw [h] <;> simp
  rw [analyze_stock_mt_target, hbv, analyze_timeframe_eq_tfFinish]
  obtain ⟨h1, h2, h3⟩ := tfFinish_long latestC4.close
    (latestC4.atr.getD (latestC4.close * (2/100))) Term.mid _ _ hv
  rw [h2]
  have hsl : calculate_stop_loss latestC4.close
      (latestC4.atr.getD (latestC4.close * (2/100))) Term.mid TradeDir.LONG = 95 := by
    simp [latestC4, calculate_stop_loss, round2, pyRoundInt]
    norm_num [Int.fract]
  rw [hsl]
  have hrisk : riskOf latestC4.close 95 = 5 := by
    simp only [latestC4, riskOf]
    norm_num [abs_of_nonneg]
  rw [hrisk]
  simp [latestC4, round2, pyRoundInt]
  norm_num [Int.fract]

/-- Claim C5 (amended): per horizon, the stop comes from `calculate_stop_loss`
with the direction implied by the verdict; risk is `|price − stop|` with the 5%
fallback (`riskOf`); the conservative target is `price ± 2·risk` and the
aggressive target `price ± 3.5·risk` (2-decimal rounded, signs inverted for a
SELL verdict); but the reported risk/reward ratio is computed from the
**conservative** target, so it always equals 2.00 (for positive price), not
`|aggressive − price| / risk = 3.5`. -/
theorem analyze_timeframe_targets (latest : LatestRow) (term : Term) (cp atr : ℚ)
    (bv : String) (hcp : 0 < cp) :
    ((analyze_timeframe latest term cp atr bv).verdict ≠ "SELL" →
      (analyze_timeframe latest term cp atr bv).stop_loss =
        calculate_stop_loss cp atr term .LONG ∧
      (analyze_timeframe latest term cp atr bv).target_conservative =
        round2 (cp + riskOf cp (analyze_timeframe latest term cp atr bv).stop_loss * 2) ∧
      (analyze_timeframe latest term cp atr bv).target_aggressive =
        round2 (cp + riskOf cp (analyze_timeframe latest term cp atr bv).stop_loss * (7/2))) ∧
    ((analyze_timeframe latest term cp atr bv).verdict = "SELL" →
      (analyze_timeframe latest term cp atr bv).stop_loss =
        calculate_stop_loss cp atr term .SHORT ∧
      (analyze_timeframe latest term cp atr bv).target_conservative =
        round2 (cp - riskOf cp (analyze_timeframe latest term cp atr bv).stop_loss * 2) ∧
      (analyze_timeframe latest term cp atr bv).target_aggressive =
        round2 (cp - riskOf cp (analyze_timeframe latest term cp atr bv).stop_loss * (7/2))) ∧
    (analyze_timeframe latest term cp atr bv).risk_reward = 2 := by
  refine ⟨?_, ?_, ?_⟩
  · intro hv
    rw [analyze_timeframe_eq_tfFinish]
    obtain ⟨h1, h2, h3⟩ := tfFinish_long cp atr term _ _ hv
    rw [h1, h2, h3]
    exact ⟨rfl, rfl, rfl⟩
  · intro hv
    rw [analyze_timeframe_eq_tfFinish]
    obtain ⟨h1, h2, h3⟩ := tfFinish_short cp atr term _ _ hv
    rw [h1, h2, h3]
    exact ⟨rfl, rfl, rfl⟩
  · rw [analyze_timeframe_eq_tfFinish]
    exact tfFinish_rr _ _ _ _ _ hcp

/-- Witness for C5: the ratio is 2 at a concrete evaluation. -/
theorem analyze_timeframe_targets_witness :
    (analyze_timeframe latestC5 .mid 100 2 "HOLD").risk_reward = 2 :=
  (analyze_timeframe_targets latestC5 .mid 100 2 "HOLD" (by norm_num)).2.2

/-- Counterexample for C5: at the concrete mid-horizon evaluation the stop is
95, the aggressive target is `round2 (100 + 5 * 3.5) = 117.5`, the claimed
ratio `|aggressive − price| / |price − stop|` rounds to 3.5, but the reported
risk/reward is 2. -/
theorem risk_reward_from_conservative_cex :
    (analyze_timeframe latestC5 .mid 100 2 "HOLD").stop_loss = 95 ∧
    (analyze_timeframe latestC5 .mid 100 2 "HOLD").target_aggressive =
      round2 (100 + 5 * (7/2)) ∧
    (analyze_timeframe latestC5 .mid 100 2 "HOLD").risk_reward = 2 ∧
    round2 (|(analyze_timeframe latestC5 .mid 100 2 "HOLD").target_aggressive - 100| /
      |(100 : ℚ) - (analyze_timeframe latestC5 .mid 100 2 "HOLD").stop_loss|) = 7/2 ∧
    (7 : ℚ)/2 ≠ 2 := by
  have hv : (analyze_timeframe latestC5 .mid 100 2 "HOLD").verdict ≠ "SELL" := by
    rcases analyze_timeframe_verdict_cases latestC5 .mid 100 2 "HOLD" with h | h | h <;>
      rw [h] <;> simp
  have hsl5 : calculate_stop_loss 100 2 Term.mid TradeDir.LONG = 95 := by
    simp [calculate_stop_loss, round2, pyRoundInt]
    norm_num [Int.fract]
  have hrisk5 : riskOf 100 (95 : ℚ) = 5 := by
    simp only [riskOf]
    norm_num [abs_of_nonneg]
  obtain ⟨h1, h2, h3⟩ := tfFinish_long 100 2 Term.mid _ _ hv
  rw [analyze_timeframe_eq_tfFinish latestC5 Term.mid 100 2 "HOLD"]
  rw [h1, h3, hsl5, hrisk5]
  refine ⟨rfl, rfl, tfFinish_rr 100 2 Term.mid _ _ (by norm_num), ?_, by norm_num⟩
  have hinner : round2 (100 + 5 * ((7 : ℚ)/2)) = 235/2 := by
    simp [round2, pyRoundInt]
    norm_num [Int.fract]
  rw [hinner]
  norm_num [abs_of_nonneg]
  simp only [round2, pyRoundInt]
  norm_num [Int.fract]

end Gyan
